import Mathlib

/-!
Verification of the "AI Study Partner" application (Express server in
`src/api/server.js`, React components `StudyChat` and `QuizGenerator`).
The JavaScript is shallowly embedded: each handler becomes a pure Lean
function, React state updates become explicit state passing, and the
network is an explicit outcome parameter.
-/

set_option maxRecDepth 4096

/-! ## Quiz generator (`src/components/QuizGenerator.jsx`) -/

/-- Embedding of a quiz question as produced by the quiz endpoint:
`{question, options, correctAnswer}` where `correctAnswer` is an option
index. -/
structure QuizQuestion where
  question : String
  options : List String
  correctAnswer : Nat
deriving Repr, DecidableEq

/-- Embedding of the scoring loop of `handleSubmit` (QuizGenerator.jsx,
lines 54-59): `questions.forEach((q, index) => { if (answers[index] ===
q.correctAnswer) correctCount++ })`, unrolled with the running index
made explicit.  The `answers` object is modelled as a partial map from
question index to selected option index. -/
def scoreCountFrom (answers : Nat → Option Nat) : List QuizQuestion → Nat → Nat
  | [], _ => 0
  | q :: rest, i =>
    (if answers i = some q.correctAnswer then 1 else 0) + scoreCountFrom answers rest (i + 1)

/-- The score computed at submission: the forEach loop starting at index 0. -/
def computeScore (questions : List QuizQuestion) (answers : Nat → Option Nat) : Nat :=
  scoreCountFrom answers questions 0

/-- Embedding of the `QuizGenerator` component state relevant to
answering and submitting: `questions` (null before generation),
`answers`, `submitted`, `score`. -/
structure QuizState where
  questions : Option (List QuizQuestion)
  answers : Nat → Option Nat
  submitted : Bool
  score : Option Nat

/-- Embedding of `handleAnswerChange` (QuizGenerator.jsx, lines 43-49):
`if (submitted) return; setAnswers(prev => ({...prev, [questionIndex]:
answerIndex}))`. -/
def handleAnswerChange (s : QuizState) (questionIndex answerIndex : Nat) : QuizState :=
  if s.submitted then s
  else { s with answers := fun i => if i = questionIndex then some answerIndex else s.answers i }

/-- Embedding of `handleSubmit` (QuizGenerator.jsx, lines 51-63):
`if (!questions || submitted) return;` then count correct answers, set
the score and mark the quiz submitted. -/
def handleSubmit (s : QuizState) : QuizState :=
  match s.questions with
  | none => s
  | some qs =>
    if s.submitted then s
    else { s with score := some (computeScore qs s.answers), submitted := true }

/-- A concrete post-submission state, used only to instantiate theorems. -/
def submittedSampleState : QuizState :=
  { questions := some [⟨"q", ["a", "b"], 1⟩]
  , answers := fun i => if i = 0 then some 1 else none
  , submitted := true
  , score := some 1 }

/-! ## String helpers shared by the embeddings -/

/-- Boolean substring test on character lists: `needle` occurs
contiguously in the list. -/
def hasSubList (needle : List Char) : List Char → Bool
  | [] => needle.isEmpty
  | c :: rest => needle.isPrefixOf (c :: rest) || hasSubList needle rest

/-- Boolean substring test on strings, the embedding of JavaScript
`hay.includes(needle)`. -/
def containsSub (hay needle : String) : Bool :=
  hasSubList needle.data hay.data

/-- Character-wise lower-casing, the embedding of JavaScript
`toLowerCase` on the ASCII range the error messages use. -/
def toLowerStr (s : String) : String :=
  String.mk (s.data.map Char.toLower)

/-- Whitespace class of JavaScript (`\s`, `trim`) restricted to the
ASCII whitespace characters: space, tab, line feed, carriage return,
vertical tab, form feed. -/
def isJsWs (c : Char) : Bool :=
  c = ' ' || c = Char.ofNat 9 || c = Char.ofNat 10 || c = Char.ofNat 13 ||
    c = Char.ofNat 11 || c = Char.ofNat 12

/-- Embedding of JavaScript `String.prototype.trim`: strip whitespace
from both ends. -/
def trimStr (s : String) : String :=
  String.mk (((s.data.dropWhile isJsWs).reverse.dropWhile isJsWs).reverse)

/-- Embedding of JavaScript `startsWith`. -/
def startsWithStr (s p : String) : Bool :=
  p.data.isPrefixOf s.data

/-- Embedding of JavaScript `slice(n)` on a string (drop the first `n`
characters). -/
def dropStr (s : String) (n : Nat) : String :=
  String.mk (s.data.drop n)

/-! ## Server helpers (`src/api/server.js`) -/

/-- The fixed study-partner system instruction (`STUDY_CHAT_PROMPT`,
server.js lines 26-27). -/
def STUDY_CHAT_PROMPT : String :=
  "You are a helpful AI study partner. Provide clear, educational explanations to help students learn. Be concise but thorough."

/-- A transcript entry as received by the server: a role and a content
field that may be missing or null (`none`) or any string. -/
structure TranscriptMessage where
  role : String
  content : Option String
deriving Repr, DecidableEq

/-- A turn in the conversation sent to the generative API:
`{role, parts: [{text}]}` collapsed to its role and single text part. -/
structure ConversationTurn where
  role : String
  text : String
deriving Repr, DecidableEq

/-- Embedding of the forEach loop of `buildConversation` (server.js
lines 41-48): each message with falsy content (`!message?.content`,
i.e. missing, null or empty) is skipped; otherwise a turn is pushed
with role `model` when the entry role is `assistant` and `user`
otherwise. -/
def conversationTurns : List TranscriptMessage → List ConversationTurn
  | [] => []
  | m :: rest =>
    match m.content with
    | none => conversationTurns rest
    | some c =>
      if c = "" then conversationTurns rest
      else ⟨if m.role = "assistant" then "model" else "user", c⟩ :: conversationTurns rest

/-- Embedding of `buildConversation` (server.js lines 31-51): when
`includePrompt` is set the fixed study prompt is pushed first as a
user-role turn, then the transcript entries are appended. -/
def buildConversation (messages : List TranscriptMessage) (includePrompt : Bool := true) :
    List ConversationTurn :=
  (if includePrompt then [⟨"user", STUDY_CHAT_PROMPT⟩] else []) ++ conversationTurns messages

/-- Canned remediation text for an invalid credential (server.js line 58). -/
def INVALID_KEY_TEXT : String :=
  "Invalid Gemini API key. Please update GEMINI_API_KEY in your .env file from https://aistudio.google.com/app/apikey"

/-- Canned remediation text for an exhausted quota (server.js line 62). -/
def QUOTA_TEXT : String :=
  "Gemini API quota exceeded. Please review your Google AI Studio usage and billing."

/-- Canned remediation text for a rate limit (server.js line 66). -/
def RATE_LIMIT_TEXT : String :=
  "Gemini rate limit reached. Please wait a moment and try again."

/-- Fallback text used when the error carries no message (server.js line 54). -/
def GEMINI_FALLBACK_TEXT : String := "Gemini API request failed."

/-- Embedding of `createErrorMessage` (server.js lines 53-70).  The
argument is the upstream error's `message` property; `none` models a
missing property, and the JavaScript `error?.message || fallback`
also replaces an empty string by the fallback. -/
def createErrorMessage (err : Option String) : String :=
  let errorMessage :=
    match err with
    | some m => if m = "" then GEMINI_FALLBACK_TEXT else m
    | none => GEMINI_FALLBACK_TEXT
  let lower := toLowerStr errorMessage
  if containsSub lower "permission" || containsSub lower "unauthorized" ||
      containsSub lower "api key" then INVALID_KEY_TEXT
  else if containsSub lower "quota" || containsSub lower "billing" ||
      containsSub lower "exceeded" then QUOTA_TEXT
  else if containsSub lower "rate limit" then RATE_LIMIT_TEXT
  else errorMessage

/-- Modelled from the spec: the ordered list of (predicate, remediation)
rules the spec describes for error classification, evaluated
top-to-bottom with first match winning, falling through to the raw
message. -/
def errorRules : List ((String → Bool) × String) :=
  [ (fun low => containsSub low "permission" || containsSub low "unauthorized" ||
      containsSub low "api key", INVALID_KEY_TEXT)
  , (fun low => containsSub low "quota" || containsSub low "billing" ||
      containsSub low "exceeded", QUOTA_TEXT)
  , (fun low => containsSub low "rate limit", RATE_LIMIT_TEXT) ]

/-- Modelled from the spec: first-match-wins evaluation of `errorRules`
against the lower-cased message, returning the raw message unchanged
when no rule matches. -/
def classifyBySpecRules (raw : String) : String :=
  match errorRules.find? (fun r => r.1 (toLowerStr raw)) with
  | some r => r.2
  | none => raw

/-! ## Search-result normalization (server.js, lines 144-149) -/

/-- Uppercase hexadecimal digit for `n < 16`, as used by
`encodeURIComponent` percent escapes. -/
def hexDigitChar (n : Nat) : Char :=
  if n < 10 then Char.ofNat (48 + n) else Char.ofNat (55 + n)

/-- The characters `encodeURIComponent` leaves unescaped, as byte
values: `A-Z`, `a-z`, `0-9` and `- _ . ! ~ * ( )` together with the
apostrophe (byte 39). -/
def isUnreservedByte (b : Nat) : Bool :=
  (65 ≤ b && b ≤ 90) || (97 ≤ b && b ≤ 122) || (48 ≤ b && b ≤ 57) ||
    b = 45 || b = 95 || b = 46 || b = 33 || b = 126 || b = 42 || b = 39 ||
    b = 40 || b = 41

/-- Percent-encoding of a single UTF-8 byte. -/
def encodeByte (b : Nat) : List Char :=
  if isUnreservedByte b then [Char.ofNat b]
  else ['%', hexDigitChar (b / 16), hexDigitChar (b % 16)]

/-- The UTF-8 bytes of a string, via the core character encoder. -/
def utf8Bytes (s : String) : List Nat :=
  ((s.data.map String.utf8EncodeChar).flatten).map (fun b => b.toNat)

/-- Embedding of JavaScript `encodeURIComponent`: every UTF-8 byte
outside the unreserved set is written as an uppercase percent escape. -/
def encodeURIComponentStr (s : String) : String :=
  String.mk (((utf8Bytes s).map encodeByte).flatten)

/-- Embedding of `title.replace(/\s+/g, '_')`: every maximal run of
whitespace becomes a single underscore.  The flag records whether the
previous character was part of a whitespace run already replaced. -/
def squashWsAux : Bool → List Char → List Char
  | _, [] => []
  | prevWs, c :: rest =>
    if isJsWs c then
      if prevWs then squashWsAux true rest else '_' :: squashWsAux true rest
    else c :: squashWsAux false rest

/-- Whitespace-run replacement on strings. -/
def squashWs (s : String) : String :=
  String.mk (squashWsAux false s.data)

/-- Scan to the first `>` and return the remainder after it, or `none`
when no `>` occurs: the `[^>]*>` tail of the highlight-markup pattern. -/
def afterGt : List Char → Option (List Char)
  | [] => none
  | c :: rest => if c = '>' then some rest else afterGt rest

/-- When the list starts with a match of the highlight-markup pattern
`<\/?span[^>]*>`, return the remainder after the match. -/
def spanTagRest (l : List Char) : Option (List Char) :=
  match l with
  | [] => none
  | c :: rest =>
    if c = '<' then
      let rest2 := if rest.head? = some '/' then rest.tail else rest
      if ['s', 'p', 'a', 'n'].isPrefixOf rest2 then afterGt (rest2.drop 4) else none
    else none

/-- Global replacement of the highlight-markup pattern by the empty
string, the embedding of `snippet.replace(/<\/?span[^>]*>/g, '')`:
scan left to right, removing each match and copying every other
character.  The fuel argument bounds the recursion; a match always
consumes at least one character, so fuel equal to the list length is
sufficient (proved below). -/
def removeSpanAux : Nat → List Char → List Char
  | 0, l => l
  | _, [] => []
  | fuel + 1, c :: rest =>
    match spanTagRest (c :: rest) with
    | some rest2 => removeSpanAux fuel rest2
    | none => c :: removeSpanAux fuel rest

/-- Highlight-markup removal on strings. -/
def removeSpanTagsStr (s : String) : String :=
  String.mk (removeSpanAux s.data.length s.data)

/-- Prefix of every normalized article link (server.js line 147). -/
def wikiArticleBase : String := "https://en.wikipedia.org/wiki/"

/-- An upstream search hit as consumed by the route: a title and a
snippet that may be missing. -/
structure SearchHit where
  title : String
  snippet : Option String
deriving Repr, DecidableEq

/-- A normalized search result as sent to the client. -/
structure NormalizedHit where
  title : String
  link : String
  snippet : String
deriving Repr, DecidableEq

/-- Embedding of the per-hit normalization lambda (server.js lines
145-149): the link percent-encodes the title with whitespace runs
replaced by underscores, and the snippet is stripped of highlight
markup (an absent or empty snippet becomes the empty string, from
`item.snippet ? ... : ''`). -/
def normalizeHit (item : SearchHit) : NormalizedHit :=
  { title := item.title
  , link := wikiArticleBase ++ encodeURIComponentStr (squashWs item.title)
  , snippet :=
      match item.snippet with
      | some s => if s = "" then "" else removeSpanTagsStr s
      | none => "" }

/-! ## Server routes (server.js, lines 87-186) -/

/-- Outcome of the generative-model call, as observed by a route: the
produced text, or a rejection whose error message may be absent. -/
inductive GenOutcome where
  | ok (text : String)
  | fail (msg : Option String)
deriving Repr, DecidableEq

/-- A route's JSON reply together with its status code and whether the
upstream service was called at all. -/
structure RouteReply where
  status : Nat
  error : Option String
  details : Option String
  response : Option String
  upstreamCalled : Bool
deriving Repr, DecidableEq

/-- Embedding of `app.post('/api/chat')` (server.js lines 87-113): a
missing credential short-circuits to 503 before any upstream call;
otherwise the generated text is returned, or the classified error with
status 500. -/
def chatRoute (hasGeminiKey : Bool) (upstream : GenOutcome) : RouteReply :=
  if !hasGeminiKey then
    { status := 503, error := some "Gemini is not configured"
    , details := some "Add GEMINI_API_KEY to your .env to enable chat."
    , response := none, upstreamCalled := false }
  else
    match upstream with
    | .ok t =>
      { status := 200, error := none, details := none
      , response := some t, upstreamCalled := true }
    | .fail m =>
      { status := 500, error := some "Failed to get response from Gemini"
      , details := some (createErrorMessage m), response := none, upstreamCalled := true }

/-- The message of the TypeError raised when the route body calls
`getGenerativeModel` on the null `genAI` client (the apostrophes the
runtime places around the property name are omitted here). -/
def nullClientError : String :=
  "Cannot read properties of null (reading getGenerativeModel)"

/-- Embedding of `app.post('/api/generate-quiz')` (server.js lines
162-186).  Unlike the chat route, the source has no credential guard:
with the key unset, `genAI` is null and the first statement of the try
block throws, so the catch answers 500 with the classified TypeError
text, still without any upstream call. -/
def quizRoute (hasGeminiKey : Bool) (upstream : GenOutcome) : RouteReply :=
  if !hasGeminiKey then
    { status := 500, error := some "Failed to generate quiz"
    , details := some (createErrorMessage (some nullClientError))
    , response := none, upstreamCalled := false }
  else
    match upstream with
    | .ok t =>
      { status := 200, error := none, details := none
      , response := some t, upstreamCalled := true }
    | .fail m =>
      { status := 500, error := some "Failed to generate quiz"
      , details := some (createErrorMessage m), response := none, upstreamCalled := true }

/-- Outcome of the upstream encyclopedia search request: a parsed body
whose `query.search` list may be absent, a non-ok HTTP reply whose
`error.message` may be absent, or a network failure. -/
inductive SearchUpstream where
  | ok (searchList : Option (List SearchHit))
  | httpErr (errMsg : Option String)
  | netErr (msg : Option String)
deriving Repr, DecidableEq

/-- The search route's JSON reply with its status code. -/
structure SearchReply where
  status : Nat
  results : Option (List NormalizedHit)
  error : Option String
  details : Option String
deriving Repr, DecidableEq

/-- Embedding of `app.get('/api/search')` (server.js lines 116-159):
trim the query (400 when empty), require the credential (503), then
normalize the upstream hits (an absent list counts as empty) or map a
failure to a 500 with the derived message. -/
def searchRoute (rawQ : Option String) (hasGeminiKey : Bool)
    (upstream : SearchUpstream) : SearchReply :=
  let query := trimStr (rawQ.getD "")
  if query = "" then
    { status := 400, results := none
    , error := some "Missing query parameter q", details := none }
  else if !hasGeminiKey then
    { status := 503, results := none
    , error := some "Gemini is not configured"
    , details := some "Add GEMINI_API_KEY to your .env to enable quiz generation." }
  else
    match upstream with
    | .ok searchList =>
      { status := 200, results := some ((searchList.getD []).map normalizeHit)
      , error := none, details := none }
    | .httpErr errMsg =>
      let thrown :=
        match errMsg with
        | some s => if s = "" then "Search request failed" else s
        | none => "Search request failed"
      { status := 500, results := none
      , error := some "Failed to perform search", details := some thrown }
    | .netErr msg =>
      let thrown :=
        match msg with
        | some s => if s = "" then "Search request failed." else s
        | none => "Search request failed."
      { status := 500, results := none
      , error := some "Failed to perform search", details := some thrown }

/-! ## Study chat client (`StudyChat`, src/unnamed/part_000) -/

/-- A chat transcript entry held by the client. -/
structure ChatMsg where
  role : String
  content : String
deriving Repr, DecidableEq

/-- The network request a submission issues, if any. -/
inductive ClientRequest where
  | chat (payload : List ChatMsg)
  | search (q : String)
deriving Repr, DecidableEq

/-- A search result as received by the client from the search route. -/
structure ClientHit where
  title : String
  link : String
  snippet : String
deriving Repr, DecidableEq

/-- Outcome of the client's search fetch: an ok reply whose `results`
field may be absent, or a failure carrying the message that reaches the
catch block. -/
inductive SearchFetch where
  | ok (results : Option (List ClientHit))
  | fail (msg : String)
deriving Repr, DecidableEq

/-- Outcome of the client's chat fetch. -/
inductive ChatFetch where
  | ok (response : String)
  | fail (msg : String)
deriving Repr, DecidableEq

/-- The assistant message the catch block appends (part_000 lines
84-90). -/
def errorReplyContent (msg : String) : String :=
  "Sorry, I encountered an error: " ++ msg ++ ". Please check your Gemini API key and try again."

/-- One line of the rendered search results (part_000 line 49). -/
def formatSearchItem (idx : Nat) (r : ClientHit) : String :=
  toString (idx + 1) ++ ". " ++ r.title ++ "\n" ++ r.link ++ "\n" ++ r.snippet

/-- The rendered search results joined by blank lines (part_000 lines
46-51). -/
def formatSearchResults (rs : List ClientHit) : String :=
  String.intercalate "\n\n" (rs.enum.map (fun p => formatSearchItem p.1 p.2))

/-- Result of one submission: the request issued (if any) and the final
transcript. -/
structure SubmitResult where
  request : Option ClientRequest
  messages : List ChatMsg
deriving Repr, DecidableEq

/-- Embedding of the `StudyChat` `handleSubmit` handler (part_000 lines
22-94) as one pure step.  The guard drops blank input or a submission
while loading; otherwise the user message is appended first, the input
is classified as a `/search` command by testing the trimmed, lowered
text for the `"/search "` prefix, and the chosen fetch outcome decides
the assistant message appended afterwards. -/
def handleSubmitStudyChat (msgs : List ChatMsg) (isLoading : Bool) (input : String)
    (searchNet : SearchFetch) (chatNet : ChatFetch) : SubmitResult :=
  if (trimStr input == "") || isLoading then { request := none, messages := msgs }
  else
    let userMessage : ChatMsg := { role := "user", content := input }
    let isSearch := startsWithStr (toLowerStr (trimStr input)) "/search "
    let searchQuery := if isSearch then trimStr (dropStr (trimStr input) 8) else ""
    let msgs1 := msgs ++ [userMessage]
    if isSearch then
      if searchQuery == "" then
        { request := none
        , messages := msgs1 ++
            [⟨"assistant", errorReplyContent "Please provide a search query after /search"⟩] }
      else
        match searchNet with
        | .ok results =>
          let formatted :=
            match results with
            | some (r :: rs) => formatSearchResults (r :: rs)
            | _ => "No results found."
          { request := some (.search searchQuery)
          , messages := msgs1 ++
              [⟨"assistant",
                "Here are the top results for \"" ++ searchQuery ++ "\":\n\n" ++ formatted⟩] }
        | .fail m =>
          { request := some (.search searchQuery)
          , messages := msgs1 ++ [⟨"assistant", errorReplyContent m⟩] }
    else
      match chatNet with
      | .ok resp =>
        { request := some (.chat msgs1), messages := msgs1 ++ [⟨"assistant", resp⟩] }
      | .fail m =>
        { request := some (.chat msgs1), messages := msgs1 ++ [⟨"assistant", errorReplyContent m⟩] }

/-! ## Theorems about the quiz component -/

theorem scoreCountFrom_eq_filter (answers : Nat → Option Nat) :
    ∀ (qs : List QuizQuestion) (i : Nat),
      scoreCountFrom answers qs i
        = ((qs.enumFrom i).filter
            (fun p => decide (answers p.1 = some p.2.correctAnswer))).length
  | [], _ => rfl
  | q :: rest, i => by
    rw [scoreCountFrom, List.enumFrom, List.filter, scoreCountFrom_eq_filter answers rest (i + 1)]
    by_cases h : answers i = some q.correctAnswer <;> simp [h, Nat.add_comm]

theorem scoreCountFrom_congr (answers answers' : Nat → Option Nat) :
    ∀ (qs : List QuizQuestion) (i : Nat),
      (∀ j, i ≤ j → j < i + qs.length → answers j = answers' j) →
      scoreCountFrom answers qs i = scoreCountFrom answers' qs i
  | [], _, _ => rfl
  | q :: rest, i, h => by
    rw [scoreCountFrom, scoreCountFrom,
      scoreCountFrom_congr answers answers' rest (i + 1)
        (fun j h1 h2 => h j (Nat.le_of_succ_le h1)
          (by simp only [List.length_cons]; omega)),
      h i (Nat.le_refl i) (by simp only [List.length_cons]; omega)]

/-- C2: for every quiz `Q` and answer map `A`, the score computed at
submission equals the number of question indices `i` whose recorded
answer is defined and equal to `Q[i].correctAnswer`; moreover the score
only depends on the answers at in-range indices, so an entry at an
out-of-range index never contributes. -/
theorem score_counts_exactly_correct_in_range_answers
    (Q : List QuizQuestion) (A : Nat → Option Nat) :
    computeScore Q A
      = ((Q.enum).filter (fun p => decide (A p.1 = some p.2.correctAnswer))).length
    ∧ ∀ A' : Nat → Option Nat,
        (∀ i, i < Q.length → A i = A' i) →
        computeScore Q A = computeScore Q A' := by
  refine ⟨scoreCountFrom_eq_filter A Q 0, fun A' h => ?_⟩
  exact scoreCountFrom_congr A A' Q 0 (fun j _ hj => h j (by simpa using hj))

/-- Witness for C2 at a concrete two-question quiz: one matching answer
gives score 1, and changing the map only at out-of-range indices leaves
the score unchanged. -/
theorem score_counts_exactly_correct_in_range_answers_witness :
    computeScore [⟨"a", [], 2⟩, ⟨"b", [], 0⟩] (fun i => if i = 0 then some 2 else some 9)
      = (([(⟨"a", [], 2⟩ : QuizQuestion), ⟨"b", [], 0⟩].enum).filter
          (fun p => decide ((fun i => if i = 0 then some 2 else some 9) p.1
            = some p.2.correctAnswer))).length
    ∧ computeScore [⟨"a", [], 2⟩, ⟨"b", [], 0⟩] (fun i => if i = 0 then some 2 else some 9)
        = computeScore [⟨"a", [], 2⟩, ⟨"b", [], 0⟩]
            (fun i => if i = 0 then some 2 else if i = 1 then some 9 else none) :=
  ⟨(score_counts_exactly_correct_in_range_answers _ _).1,
   (score_counts_exactly_correct_in_range_answers
      [⟨"a", [], 2⟩, ⟨"b", [], 0⟩] (fun i => if i = 0 then some 2 else some 9)).2
      (fun i => if i = 0 then some 2 else if i = 1 then some 9 else none)
      (by decide)⟩

/-- C4: once `submitted = true`, the quiz state is frozen: a further
answer selection leaves the state (in particular the answer map)
unchanged, and a further submit leaves the state (in particular the
score) unchanged. -/
theorem submitted_state_frozen (s : QuizState) (qi ai : Nat)
    (h : s.submitted = true) :
    handleAnswerChange s qi ai = s ∧ handleSubmit s = s := by
  constructor
  · simp [handleAnswerChange, h]
  · unfold handleSubmit
    cases hq : s.questions with
    | none => rfl
    | some qs => simp [h]

/-- Witness for C4 at a concrete submitted state. -/
theorem submitted_state_frozen_witness :
    handleAnswerChange submittedSampleState 0 0 = submittedSampleState
    ∧ handleSubmit submittedSampleState = submittedSampleState :=
  submitted_state_frozen submittedSampleState 0 0 rfl

/-! ## Theorems about buildConversation and error classification -/

theorem conversationTurns_eq_filter_map :
    ∀ msgs : List TranscriptMessage,
      conversationTurns msgs
        = (msgs.filter (fun m => decide (m.content.getD "" ≠ ""))).map
            (fun m =>
              (⟨if m.role = "assistant" then "model" else "user", m.content.getD ""⟩ :
                ConversationTurn))
  | [] => rfl
  | m :: rest => by
    cases hc : m.content with
    | none =>
      simp [conversationTurns, hc, List.filter_cons, conversationTurns_eq_filter_map rest]
    | some c =>
      by_cases h : c = "" <;>
        simp [conversationTurns, hc, h, List.filter_cons, conversationTurns_eq_filter_map rest]

/-- C6 counterexample: a transcript consisting of one user entry with
empty content yields a conversation of length 1 (the system turn only),
not the 2 turns the claim (one turn per transcript entry after the
system turn) requires. -/
theorem conversation_one_turn_per_entry_counterexample :
    (buildConversation [⟨"user", some ""⟩] true).length = 1
    ∧ (buildConversation [⟨"user", some ""⟩] true).length ≠ 1 + 1 := by
  constructor
  · rfl
  · decide

/-- C6 amended: the conversation built for the generative API begins
with the fixed study-partner instruction as a user-role turn, followed
by one turn per transcript entry with non-empty content, in order, with
role `assistant` mapped to `model` and every other role mapped to
`user`. -/
theorem conversation_is_prompt_then_mapped_nonempty_entries
    (msgs : List TranscriptMessage) :
    buildConversation msgs true
      = ⟨"user", STUDY_CHAT_PROMPT⟩ ::
          (msgs.filter (fun m => decide (m.content.getD "" ≠ ""))).map
            (fun m =>
              (⟨if m.role = "assistant" then "model" else "user", m.content.getD ""⟩ :
                ConversationTurn)) := by
  simp [buildConversation, conversationTurns_eq_filter_map]

theorem conversationTurns_length_le :
    ∀ msgs : List TranscriptMessage, (conversationTurns msgs).length ≤ msgs.length
  | [] => Nat.le_refl 0
  | m :: rest => by
    cases hc : m.content with
    | none =>
      simp only [conversationTurns, hc, List.length_cons]
      exact Nat.le_succ_of_le (conversationTurns_length_le rest)
    | some c =>
      by_cases h : c = ""
      · simp only [conversationTurns, hc, h, if_pos rfl, List.length_cons]
        exact Nat.le_succ_of_le (conversationTurns_length_le rest)
      · simp only [conversationTurns, hc, if_neg h, List.length_cons]
        exact Nat.succ_le_succ (conversationTurns_length_le rest)

theorem conversationTurns_skips_falsy (m : TranscriptMessage)
    (hm : m.content = none ∨ m.content = some "") (post : List TranscriptMessage) :
    ∀ pre : List TranscriptMessage,
      conversationTurns (pre ++ m :: post) = conversationTurns (pre ++ post)
  | [] => by
    rcases hm with h | h <;> simp [conversationTurns, h]
  | p :: pre => by
    cases hc : p.content with
    | none => simp [conversationTurns, hc, conversationTurns_skips_falsy m hm post pre]
    | some c =>
      by_cases h : c = "" <;>
        simp [conversationTurns, hc, h, conversationTurns_skips_falsy m hm post pre]

/-- C10: a transcript entry whose content is missing, null or empty is
silently omitted from the conversation, so dropping it changes nothing,
and the conversation carries strictly fewer transcript-derived turns
than the transcript has messages. -/
theorem falsy_content_entry_silently_omitted
    (pre post : List TranscriptMessage) (m : TranscriptMessage)
    (hm : m.content = none ∨ m.content = some "") (incl : Bool) :
    buildConversation (pre ++ m :: post) incl = buildConversation (pre ++ post) incl
    ∧ (conversationTurns (pre ++ m :: post)).length < (pre ++ m :: post).length := by
  have hskip := conversationTurns_skips_falsy m hm post pre
  constructor
  · simp [buildConversation, hskip]
  · rw [hskip]
    calc (conversationTurns (pre ++ post)).length
        ≤ (pre ++ post).length := conversationTurns_length_le _
      _ < (pre ++ m :: post).length := by simp

/-- Witness for C10: the single null-content entry produces the same
conversation as the empty transcript, and zero turns for one message. -/
theorem falsy_content_entry_silently_omitted_witness :
    ((⟨"user", none⟩ : TranscriptMessage).content = none
      ∨ (⟨"user", none⟩ : TranscriptMessage).content = some "")
    ∧ (buildConversation [⟨"user", none⟩] true = buildConversation [] true
        ∧ (conversationTurns [⟨"user", none⟩]).length < [(⟨"user", none⟩ : TranscriptMessage)].length) :=
  ⟨Or.inl rfl, falsy_content_entry_silently_omitted [] [] ⟨"user", none⟩ (Or.inl rfl) true⟩

/-- C7 counterexample: on an empty upstream message no classification
rule matches, yet `createErrorMessage` does not return the message
unchanged: it substitutes the fallback text. -/
theorem createErrorMessage_empty_message_counterexample :
    createErrorMessage (some "") = GEMINI_FALLBACK_TEXT
    ∧ classifyBySpecRules "" = ""
    ∧ createErrorMessage (some "") ≠ classifyBySpecRules "" := by
  refine ⟨rfl, rfl, ?_⟩
  decide

/-- C7 amended: for every non-empty upstream error message, the
classifier agrees with the spec's ordered rule list (lower-cased
substring predicates, first match wins, raw message on fall-through);
a missing or empty message is first replaced by the fallback text. -/
theorem createErrorMessage_refines_spec_rules (m : String) (h : m ≠ "") :
    createErrorMessage (some m) = classifyBySpecRules m := by
  have hite : (if m = "" then GEMINI_FALLBACK_TEXT else m) = m := if_neg h
  simp only [createErrorMessage, classifyBySpecRules, errorRules, hite, List.find?]
  cases h1 : containsSub (toLowerStr m) "permission" || containsSub (toLowerStr m) "unauthorized"
      || containsSub (toLowerStr m) "api key" <;>
    cases h2 : containsSub (toLowerStr m) "quota" || containsSub (toLowerStr m) "billing"
        || containsSub (toLowerStr m) "exceeded" <;>
      cases h3 : containsSub (toLowerStr m) "rate limit" <;>
        simp_all

/-- Witness for C7 at a concrete rate-limit message. -/
theorem createErrorMessage_refines_spec_rules_witness :
    "Rate limit hit" ≠ ""
    ∧ createErrorMessage (some "Rate limit hit") = classifyBySpecRules "Rate limit hit" :=
  ⟨by decide, createErrorMessage_refines_spec_rules "Rate limit hit" (by decide)⟩

/-! ## Theorems about the routes and the chat client -/

theorem afterGt_shrinks :
    ∀ (l r : List Char), afterGt l = some r → r.length < l.length
  | [], _, h => by simp [afterGt] at h
  | c :: rest, r, h => by
    rw [afterGt] at h
    split at h
    · injection h with h
      subst h
      simp
    · exact Nat.lt_trans (afterGt_shrinks rest r h) (by simp)

theorem spanTagRest_shrinks (l r : List Char) (h : spanTagRest l = some r) :
    r.length < l.length := by
  match l with
  | [] => simp [spanTagRest] at h
  | c :: rest =>
    have key : ∀ rest2 : List Char, rest2.length ≤ rest.length →
        (if ['s', 'p', 'a', 'n'].isPrefixOf rest2 then afterGt (rest2.drop 4) else none)
          = some r →
        r.length < (c :: rest).length := by
      intro rest2 hle hh
      split at hh
      · have h1 := afterGt_shrinks _ _ hh
        have h2 : (rest2.drop 4).length ≤ rest2.length := by simp
        simp only [List.length_cons]
        omega
      · simp at hh
    simp only [spanTagRest] at h
    split at h
    · refine key _ ?_ h
      split
      · simp [List.length_tail]
      · exact Nat.le_refl _
    · simp at h

theorem removeSpanAux_fuel_agnostic :
    ∀ (fuel fuel' : Nat) (l : List Char), l.length ≤ fuel → l.length ≤ fuel' →
      removeSpanAux fuel l = removeSpanAux fuel' l
  | 0, fuel', l, h, h' => by
    have : l = [] := List.length_eq_zero.mp (Nat.le_zero.mp h)
    subst this
    cases fuel' <;> rfl
  | fuel + 1, fuel', [], _, _ => by
    cases fuel' <;> rfl
  | fuel + 1, 0, c :: rest, h, h' => by
    simp at h'
  | fuel + 1, fuel' + 1, c :: rest, h, h' => by
    simp only [removeSpanAux]
    cases hm : spanTagRest (c :: rest) with
    | some rest2 =>
      have hlen := spanTagRest_shrinks _ _ hm
      simp only [List.length_cons] at hlen h h'
      exact removeSpanAux_fuel_agnostic fuel fuel' rest2 (by omega) (by omega)
    | none =>
      simp only [List.length_cons] at h h'
      rw [removeSpanAux_fuel_agnostic fuel fuel' rest (by omega) (by omega)]

theorem isPrefixOf_self : ∀ l : List Char, l.isPrefixOf l = true
  | [] => rfl
  | c :: rest => by simp [List.isPrefixOf, isPrefixOf_self rest]

theorem hasSubList_suffix (needle : List Char) :
    ∀ pre : List Char, hasSubList needle (pre ++ needle) = true
  | [] => by
    cases needle with
    | nil => rfl
    | cons c rest => simp [hasSubList, isPrefixOf_self]
  | c :: pre => by
    have ih := hasSubList_suffix needle pre
    simp [hasSubList, ih]

/-- C1: with the credential unset, the chat route answers 503 with the
instruction to set the key and no upstream call, but the quiz route
answers 500 (from the TypeError on the null client), not 503, and its
details are not the credential instruction: the quiz half of the claim
fails on the code. -/
theorem missing_key_chat_503_but_quiz_500 (o : GenOutcome) :
    (chatRoute false o).status = 503
    ∧ (chatRoute false o).upstreamCalled = false
    ∧ (chatRoute false o).details = some "Add GEMINI_API_KEY to your .env to enable chat."
    ∧ (quizRoute false o).upstreamCalled = false
    ∧ (quizRoute false o).status = 500
    ∧ (quizRoute false o).status ≠ 503
    ∧ (quizRoute false o).details
        ≠ some "Add GEMINI_API_KEY to your .env to enable quiz generation." := by
  refine ⟨rfl, rfl, rfl, rfl, rfl, fun hcontra => ?_, fun hcontra => ?_⟩
  · exact absurd (show (500 : Nat) = 503 from hcontra) (by decide)
  · exact absurd
      (show some (createErrorMessage (some nullClientError))
          = some "Add GEMINI_API_KEY to your .env to enable quiz generation." from hcontra)
      (by decide)

/-- C3: submitting the chat input consisting of the `/search` prefix
followed by only whitespace does not surface the empty-query error:
the input is trimmed before the prefix test, so it is classified as an
ordinary chat message, a chat network request is issued, and no message
containing the error text is appended. -/
theorem search_blank_query_sent_as_chat :
    (handleSubmitStudyChat [] false "/search  " (.ok none) (.ok "reply")).request
        = some (.chat [⟨"user", "/search  "⟩])
    ∧ (handleSubmitStudyChat [] false "/search  " (.ok none) (.ok "reply")).messages
        = [⟨"user", "/search  "⟩, ⟨"assistant", "reply"⟩]
    ∧ ((handleSubmitStudyChat [] false "/search  " (.ok none) (.ok "reply")).messages.all
        (fun m => !(containsSub m.content "Please provide a search query after /search"))) = true := by
  refine ⟨by decide, by decide, by decide⟩

/-- C9: submitting a non-blank, non-search input appends exactly one
user entry carrying the input before the request is sent (the chat
request payload is the prior transcript plus that single entry), and a
successful response appends exactly one assistant entry. -/
theorem chat_submit_appends_one_user_one_assistant
    (msgs : List ChatMsg) (input resp : String) (sf : SearchFetch)
    (h1 : trimStr input ≠ "")
    (h2 : startsWithStr (toLowerStr (trimStr input)) "/search " = false) :
    (handleSubmitStudyChat msgs false input sf (.ok resp)).request
        = some (.chat (msgs ++ [⟨"user", input⟩]))
    ∧ (handleSubmitStudyChat msgs false input sf (.ok resp)).messages
        = msgs ++ [⟨"user", input⟩] ++ [⟨"assistant", resp⟩] := by
  have hb : (trimStr input == "") = false := by
    simpa using h1
  simp [handleSubmitStudyChat, hb, h2]

/-- Witness for C9 at the concrete input `"hi"` with reply `"hello"`. -/
theorem chat_submit_appends_one_user_one_assistant_witness :
    trimStr "hi" ≠ ""
    ∧ startsWithStr (toLowerStr (trimStr "hi")) "/search " = false
    ∧ ((handleSubmitStudyChat [] false "hi" (.ok none) (.ok "hello")).request
          = some (.chat ([] ++ [⟨"user", "hi"⟩]))
        ∧ (handleSubmitStudyChat [] false "hi" (.ok none) (.ok "hello")).messages
          = [] ++ [⟨"user", "hi"⟩] ++ [⟨"assistant", "hello"⟩]) :=
  ⟨by decide, by decide,
    chat_submit_appends_one_user_one_assistant [] "hi" "hello" (.ok none)
      (by decide) (by decide)⟩

/-- C5: a search whose upstream call succeeds with zero hits is
answered 200 with an empty results list and no error, and the chat
panel then appends one assistant message whose text contains the
literal `"No results found."`, not the error wrapper. -/
theorem zero_hit_search_ok_and_renders_no_results
    (q input : String) (msgs : List ChatMsg) (cf : ChatFetch)
    (hq : trimStr q ≠ "")
    (hne : trimStr input ≠ "")
    (hs : startsWithStr (toLowerStr (trimStr input)) "/search " = true)
    (hsq : trimStr (dropStr (trimStr input) 8) ≠ "") :
    (searchRoute (some q) true (.ok (some []))).status = 200
    ∧ (searchRoute (some q) true (.ok (some []))).results = some []
    ∧ (searchRoute (some q) true (.ok (some []))).error = none
    ∧ (handleSubmitStudyChat msgs false input (.ok (some [])) cf).messages
        = msgs ++ [⟨"user", input⟩]
            ++ [⟨"assistant",
                  "Here are the top results for \"" ++ trimStr (dropStr (trimStr input) 8)
                    ++ "\":\n\n" ++ "No results found."⟩]
    ∧ containsSub ("Here are the top results for \"" ++ trimStr (dropStr (trimStr input) 8)
          ++ "\":\n\n" ++ "No results found.") "No results found." = true := by
  have hb : (trimStr input == "") = false := by simpa using hne
  have hbq : (trimStr (dropStr (trimStr input) 8) == "") = false := by simpa using hsq
  refine ⟨by simp [searchRoute, hq], by simp [searchRoute, hq], by simp [searchRoute, hq], ?_, ?_⟩
  · simp [handleSubmitStudyChat, hb, hs, hbq]
  · have base := hasSubList_suffix "No results found.".data
      ("Here are the top results for \"" ++ trimStr (dropStr (trimStr input) 8)
        ++ "\":\n\n").data
    simpa [containsSub, List.append_assoc] using base

/-- Witness for C5 at the query `"zz"` submitted as `"/search zz"`. -/
theorem zero_hit_search_ok_and_renders_no_results_witness :
    trimStr "zz" ≠ ""
    ∧ trimStr "/search zz" ≠ ""
    ∧ startsWithStr (toLowerStr (trimStr "/search zz")) "/search " = true
    ∧ trimStr (dropStr (trimStr "/search zz") 8) ≠ ""
    ∧ ((searchRoute (some "zz") true (.ok (some []))).status = 200
        ∧ (searchRoute (some "zz") true (.ok (some []))).results = some []
        ∧ (searchRoute (some "zz") true (.ok (some []))).error = none
        ∧ (handleSubmitStudyChat [] false "/search zz" (.ok (some [])) (.ok "x")).messages
            = [] ++ [⟨"user", "/search zz"⟩]
                ++ [⟨"assistant",
                      "Here are the top results for \"" ++ trimStr (dropStr (trimStr "/search zz") 8)
                        ++ "\":\n\n" ++ "No results found."⟩]
        ∧ containsSub ("Here are the top results for \"" ++ trimStr (dropStr (trimStr "/search zz") 8)
              ++ "\":\n\n" ++ "No results found.") "No results found." = true) :=
  ⟨by decide, by decide, by decide, by decide,
    zero_hit_search_ok_and_renders_no_results "zz" "/search zz" [] (.ok "x")
      (by decide) (by decide) (by decide) (by decide)⟩

/-- C8: every normalized hit carries the link built from the article
base URL and the percent-encoded title with whitespace runs replaced
by underscores, and the snippet stripped of highlight markup; the
final conjunct evaluates the normalization end to end on a
representative hit. -/
theorem normalized_hit_link_and_snippet (item : SearchHit) :
    (normalizeHit item).link
        = wikiArticleBase ++ encodeURIComponentStr (squashWs item.title)
    ∧ (normalizeHit item).snippet = removeSpanTagsStr (item.snippet.getD "")
    ∧ normalizeHit
        ⟨"Albert Einstein", some "<span class=\"searchmatch\">Albert</span> Einstein was"⟩
        = ⟨"Albert Einstein", "https://en.wikipedia.org/wiki/Albert_Einstein",
            "Albert Einstein was"⟩ := by
  refine ⟨rfl, ?_, by decide⟩
  cases hs : item.snippet with
  | none => simp [normalizeHit, hs, removeSpanTagsStr, removeSpanAux]
  | some s =>
    by_cases h : s = "" <;>
      simp [normalizeHit, hs, h, removeSpanTagsStr, removeSpanAux]
